import Mathlib

attribute [local semireducible] Rat.add Rat.mul Rat.sub Rat.inv

deriving instance DecidableEq for Except

/-!  Shallow embedding of the demand forecasting and inventory optimization
services of the inventory repository (services/forecasting.py and
services/optimization.py).  Transactions are modelled as (day, quantity)
pairs with integer day numbers; quantities and money amounts are exact
rationals, and real numbers appear only where the source takes square
roots.  The numerical fit performed by the external smoothing library is
modelled as an oracle parameter: every property proved below holds for an
arbitrary fit outcome. -/

/-- Mean of a list of rationals (sum divided by length; rational division
by zero makes the mean of an empty list 0).  Mirrors pandas Series.mean. -/
def listMean (xs : List ℚ) : ℚ := xs.sum / xs.length

/-- Sample variance with one delta degree of freedom, mirroring the default
ddof = 1 of pandas Series.std, whose value is the square root of this. -/
def sampleVar (xs : List ℚ) : ℚ :=
  ((xs.map (fun x => (x - listMean xs) ^ 2)).sum) / ((xs.length : ℚ) - 1)

/-- Round a rational to the nearest integer with ties to even, the
behaviour of Python round on an exactly represented value. -/
def roundHalfEven (y : ℚ) : ℤ :=
  if y - ⌊y⌋ = 1 / 2 then (if ⌊y⌋ % 2 = 0 then ⌊y⌋ else ⌊y⌋ + 1)
  else ⌊y + 1 / 2⌋

/-- Round to two decimal places, as Python round(x, 2) on exact values. -/
def round2 (x : ℚ) : ℚ := (roundHalfEven (100 * x) : ℚ) / 100

/-- Exponentially weighted mean with smoothing factor alpha, the last value
of pandas Series.ewm(alpha).mean() with the default adjust=True: weights
(1-alpha)^i for the i-th most recent observation. -/
def ewmMean (alpha : ℚ) (xs : List ℚ) : ℚ :=
  (List.zipWith (fun w x => w * x)
      ((List.range xs.length).map (fun i => (1 - alpha) ^ (xs.length - 1 - i))) xs).sum /
  ((List.range xs.length).map (fun i => (1 - alpha) ^ (xs.length - 1 - i))).sum

/-- Sum of outbound magnitudes recorded on day d.  Shipments are stored
with negative quantities, so the extractor takes absolute values. -/
def day_outbound (txns : List (ℤ × ℚ)) (d : ℤ) : ℚ :=
  ((txns.filter (fun t => t.1 = d)).map (fun t => |t.2|)).sum

/-- get_historical_demand: keep the transactions inside the trailing
window, group them by day, sum the magnitudes per day and sort by day.
The result has one row per distinct transaction day, in ascending order. -/
def get_historical_demand (txns : List (ℤ × ℚ)) (today days : ℤ) : List (ℤ × ℚ) :=
  (List.insertionSort (fun a b => a ≤ b)
      ((txns.filter (fun t => today - days ≤ t.1)).map Prod.fst).dedup).map
    (fun d => (d, day_outbound (txns.filter (fun t => today - days ≤ t.1)) d))

/-- First day of a grouped demand series (0 for the empty series). -/
def series_min_date : List (ℤ × ℚ) → ℤ
  | [] => 0
  | p :: rest => rest.foldl (fun a t => min a t.1) p.1

/-- Last day of a grouped demand series (0 for the empty series). -/
def series_max_date : List (ℤ × ℚ) → ℤ
  | [] => 0
  | p :: rest => rest.foldl (fun a t => max a t.1) p.1

/-- Demand recorded in a grouped series on day d (0 when the day has no
row, which is the asfreq fill value). -/
def day_demand (s : List (ℤ × ℚ)) (d : ℤ) : ℚ :=
  ((s.filter (fun t => t.1 = d)).map Prod.snd).sum

/-- asfreq to daily frequency with fill value 0: the contiguous run of days
from the first to the last day of the series, keeping the dates. -/
def resample_daily_dated (s : List (ℤ × ℚ)) : List (ℤ × ℚ) :=
  match s with
  | [] => []
  | _ :: _ =>
    (List.range ((series_max_date s - series_min_date s).toNat + 1)).map
      (fun i => (series_min_date s + i, day_demand s (series_min_date s + i)))

/-- asfreq to daily frequency with fill value 0, values only. -/
def resample_daily (s : List (ℤ × ℚ)) : List ℚ :=
  (resample_daily_dated s).map Prod.snd

/-- Result dictionary of a successful forecast.  The parameters entry of
the source dictionary is metadata and is not modelled. -/
structure ForecastRes where
  forecast_method : String
  horizon_days : ℕ
  total_forecast : ℚ
  daily_average : ℚ
  forecast_series : Option (List ℚ)
  data_points : ℕ
deriving DecidableEq

/-- Configuration handed to the ExponentialSmoothing constructor. -/
structure SmoothingConfig where
  trend : Option String
  seasonal : Option String
deriving DecidableEq

/-- Model configuration chosen by exponential_smoothing_forecast from the
length of the resampled daily series, transcribed branch by branch from
the source (both branches of its if/else construct pass trend add and no
seasonal component). -/
def smoothing_model_config (n : ℕ) : SmoothingConfig :=
  if 28 ≤ n then { trend := some ("add"), seasonal := none }
  else { trend := some ("add"), seasonal := none }

/-- Configuration of the simple-smoothing retry used when the first fit
raises: no trend and no seasonal component. -/
def simple_smoothing_config : SmoothingConfig :=
  { trend := none, seasonal := none }

/-- The numerical fit of the external statsmodels library, abstracted: it
receives the model configuration, the resampled series and the horizon and
either returns a forecast series or fails (raises). -/
abbrev FitOracle := SmoothingConfig → List ℚ → ℕ → Option (List ℚ)

/-- Build the result dictionary shared by the methods that return a
per-day forecast series: the total is the sum of the series and the daily
average is the total divided by the horizon. -/
def mk_forecast_result (method : String) (horizon : ℕ) (f : List ℚ) (dp : ℕ) : ForecastRes :=
  { forecast_method := method
    horizon_days := horizon
    total_forecast := f.sum
    daily_average := f.sum / horizon
    forecast_series := some f
    data_points := dp }

/-- Last value of the rolling(window).mean column.  With fewer than window
rows the last rolling value is NaN and the source falls back to the overall
mean of the series; with at least window rows it is the mean of the last
window values. -/
def last_moving_average (df : List (ℤ × ℚ)) (window : ℕ) : ℚ :=
  if window ≤ df.length then
    ((df.map Prod.snd).drop (df.length - window)).sum / window
  else listMean (df.map Prod.snd)

/-- moving_average_forecast: demand history over a 2*window trailing
window, guarded by a minimum of window distinct days, forecast flat at the
last moving-average value.  A zero window makes pandas rolling raise, which
the blanket exception handler of the source turns into an error result. -/
def moving_average_forecast (txns : List (ℤ × ℚ)) (today : ℤ) (horizon window : ℕ) :
    Except String ForecastRes :=
  if (get_historical_demand txns today (2 * window)).length < window then
    .error ("Insufficient data. Need at least " ++ toString window ++ " days of data.")
  else if window = 0 then
    .error ("Forecast calculation failed: window must be an integer 0 or greater")
  else
    .ok { forecast_method := "moving_average"
          horizon_days := horizon
          total_forecast := last_moving_average (get_historical_demand txns today (2 * window)) window * horizon
          daily_average := last_moving_average (get_historical_demand txns today (2 * window)) window
          forecast_series := none
          data_points := (get_historical_demand txns today (2 * window)).length }

/-- exponential_smoothing_forecast: 90-day history, at least 14 distinct
days required, resampled to daily frequency; the fit is attempted with the
selected configuration and retried with simple smoothing when it raises;
if both raise, the blanket handler returns an error result.  A resampled
series shorter than 14 points would use a fixed alpha 0.3 exponentially
weighted flat forecast (unreachable: resampling never shortens a series). -/
def exponential_smoothing_forecast (txns : List (ℤ × ℚ)) (today : ℤ) (horizon : ℕ)
    (fit : FitOracle) : Except String ForecastRes :=
  if (get_historical_demand txns today 90).length < 14 then
    .error ("Insufficient data. Need at least 14 days of data.")
  else if 14 ≤ (resample_daily (get_historical_demand txns today 90)).length then
    match fit (smoothing_model_config (resample_daily (get_historical_demand txns today 90)).length)
        (resample_daily (get_historical_demand txns today 90)) horizon with
    | some f => .ok (mk_forecast_result ("exponential_smoothing") horizon f
        (resample_daily (get_historical_demand txns today 90)).length)
    | none =>
      match fit simple_smoothing_config (resample_daily (get_historical_demand txns today 90)) horizon with
      | some f => .ok (mk_forecast_result ("exponential_smoothing") horizon f
          (resample_daily (get_historical_demand txns today 90)).length)
      | none => .error ("Forecast calculation failed: smoothing fit failed")
  else
    .ok (mk_forecast_result ("exponential_smoothing") horizon
      (List.replicate horizon (ewmMean (3 / 10) (resample_daily (get_historical_demand txns today 90))))
      (resample_daily (get_historical_demand txns today 90)).length)

/-- Closed-form least-squares slope over indices 0..n-1 versus the series
values, transcribed from the source sums. -/
def linreg_slope (y : List ℚ) : ℚ :=
  ((y.length : ℚ) * (List.zipWith (fun x v => x * v) ((List.range y.length).map (Nat.cast)) y).sum -
      ((List.range y.length).map (Nat.cast : ℕ → ℚ)).sum * y.sum) /
  ((y.length : ℚ) * ((List.range y.length).map (fun i => ((i : ℚ)) * i)).sum -
      ((List.range y.length).map (Nat.cast : ℕ → ℚ)).sum * ((List.range y.length).map (Nat.cast : ℕ → ℚ)).sum)

/-- Closed-form least-squares intercept matching linreg_slope. -/
def linreg_intercept (y : List ℚ) : ℚ :=
  (y.sum - linreg_slope y * ((List.range y.length).map (Nat.cast : ℕ → ℚ)).sum) / (y.length : ℚ)

/-- Extrapolated line values at indices n..n+horizon-1, clamped at zero
elementwise as np.maximum(forecast_values, 0). -/
def trend_forecast_series (y : List ℚ) (horizon : ℕ) : List ℚ :=
  (List.range horizon).map
    (fun j => max (linreg_slope y * ((y.length + j : ℕ) : ℚ) + linreg_intercept y) 0)

/-- trend_analysis_forecast: 60-day history, at least 10 distinct days
required, daily resampling, least-squares line, clamped extrapolation. -/
def trend_analysis_forecast (txns : List (ℤ × ℚ)) (today : ℤ) (horizon : ℕ) :
    Except String ForecastRes :=
  if (get_historical_demand txns today 60).length < 10 then
    .error ("Insufficient data for trend analysis. Need at least 10 days of data.")
  else
    .ok (mk_forecast_result ("trend_analysis") horizon
      (trend_forecast_series (resample_daily (get_historical_demand txns today 60)) horizon)
      (resample_daily (get_historical_demand txns today 60)).length)

/-- Number of distinct demand days in the 90-day history, the quantity the
auto mode dispatches on. -/
def available_days (txns : List (ℤ × ℚ)) (today : ℤ) : ℕ :=
  (get_historical_demand txns today 90).length

/-- Error message of the auto mode when fewer than 7 days exist. -/
def auto_min_message : String :=
  "Insufficient data for forecasting. Need at least 7 days of historical data."

/-- generate_forecast: explicit methods dispatch directly; auto picks by
data availability, preferring exponential smoothing at 14 or more days and
falling back to moving average only when the smoothing call errors. -/
def generate_forecast (txns : List (ℤ × ℚ)) (today : ℤ) (horizon : ℕ) (method : String)
    (fit : FitOracle) : Except String ForecastRes :=
  if method = "moving_average" then moving_average_forecast txns today horizon 14
  else if method = "exponential_smoothing" then exponential_smoothing_forecast txns today horizon fit
  else if method = "trend_analysis" then trend_analysis_forecast txns today horizon
  else if method = "auto" then
    if available_days txns today < 7 then .error (auto_min_message)
    else if available_days txns today < 14 then
      moving_average_forecast txns today horizon (min 7 (available_days txns today))
    else
      match exponential_smoothing_forecast txns today horizon fit with
      | .ok r => .ok r
      | .error _ => moving_average_forecast txns today horizon 14
  else .error ("Unknown forecast method: " ++ method)

/-- Example history: 14 consecutive days of demand 10 each. -/
def exTx14 : List (ℤ × ℚ) := (List.range 14).map (fun i => ((i : ℤ), (10 : ℚ)))

/-- Example history: 5 consecutive days of demand 3 each. -/
def exTx5 : List (ℤ × ℚ) := (List.range 5).map (fun i => ((i : ℤ), (3 : ℚ)))

/-- Example history: 8 consecutive days of demand 4 each. -/
def exTx8 : List (ℤ × ℚ) := (List.range 8).map (fun i => ((i : ℤ), (4 : ℚ)))

/-- Example history with strictly decreasing demand 90, 80, ..., 0 over
10 consecutive days, giving a fitted line of slope -10. -/
def exTx10 : List (ℤ × ℚ) := (List.range 10).map (fun i => ((i : ℤ), (90 - 10 * i : ℚ)))

/-- Fit oracle that always fails, standing for a statsmodels fit that
raises on every configuration. -/
def failFit : FitOracle := fun _ _ _ => none

/-- Result of the moving-average forecast on exTx14 with horizon 7. -/
def exMA14 : ForecastRes :=
  { forecast_method := "moving_average", horizon_days := 7, total_forecast := 70,
    daily_average := 10, forecast_series := none, data_points := 14 }

/-- Result of the trend forecast on exTx10 with horizon 3: the line goes
negative immediately, so every clamped value is 0. -/
def exTR10 : ForecastRes :=
  { forecast_method := "trend_analysis", horizon_days := 3, total_forecast := 0,
    daily_average := 0, forecast_series := some [0, 0, 0], data_points := 10 }

/-- Trailing simple moving average over the most recent window calendar
days of the extracted series, counting days without a demand record as
zero.  This follows the words of the specification, for comparison with
the observation-based rolling mean the source computes. -/
def spec_trailing_sma (txns : List (ℤ × ℚ)) (today : ℤ) (window : ℕ) : ℚ :=
  ((List.range window).map (fun i =>
      day_demand (get_historical_demand txns today (2 * window))
        (series_max_date (get_historical_demand txns today (2 * window)) - i))).sum / window

/-- Example history with a gap: demand 10 on day 0 and on day 2, no
record on day 1. -/
def exTxGap : List (ℤ × ℚ) := [(0, 10), (2, 10)]

/-- Result of the moving-average forecast on exTxGap, horizon 1 window 2. -/
def exMAGap : ForecastRes :=
  { forecast_method := "moving_average", horizon_days := 1, total_forecast := 10,
    daily_average := 10, forecast_series := none, data_points := 2 }

/-- Daily-resampled 365-day history used by the seasonal analysis. -/
def seasonal_daily (txns : List (ℤ × ℚ)) (today : ℤ) : List (ℤ × ℚ) :=
  resample_daily_dated (get_historical_demand txns today 365)

/-- Whether any day of weekday k occurs in the resampled series; weekdays
are day numbers modulo 7, matching the groupby on dayofweek. -/
def weekday_present (daily : List (ℤ × ℚ)) (k : ℕ) : Bool :=
  daily.any (fun t => t.1 % 7 == (k : ℤ))

/-- Mean demand over the days of weekday k. -/
def weekday_mean (daily : List (ℤ × ℚ)) (k : ℕ) : ℚ :=
  listMean ((daily.filter (fun t => t.1 % 7 = (k : ℤ))).map Prod.snd)

/-- The day_avg series of the source: mean demand per observed weekday,
in weekday order, restricted to weekdays that occur (groupby semantics). -/
def weekday_means (daily : List (ℤ × ℚ)) : List ℚ :=
  ((List.range 7).filter (fun k => weekday_present daily k)).map (weekday_mean daily)

/-- Square of the coefficient of variation std over mean across the
weekday means, 0 when the mean is not positive as in the source.  The
square is kept so the value stays rational; the square root is taken in
the theorems about it. -/
def seasonal_cv_sq (daily : List (ℤ × ℚ)) : ℚ :=
  if 0 < listMean (weekday_means daily) then
    sampleVar (weekday_means daily) / (listMean (weekday_means daily)) ^ 2
  else 0

/-- Result dictionary of get_seasonal_patterns.  The source dictionary of
the short-continuous-data branch has only the detection flag and a reason;
the remaining fields are modelled with empty defaults there. -/
structure SeasonalRes where
  seasonal_detected : Bool
  reason : Option String
  day_of_week_pattern : List ℚ
  cv_sq : ℚ
  data_points : ℕ
deriving DecidableEq

/-- get_seasonal_patterns over a 365-day history: fewer than 30 distinct
demand days is an error result; otherwise the series is resampled and
seasonality is flagged when the coefficient of variation of the weekday
means exceeds 0.2, that is when its square exceeds 1/25. -/
def get_seasonal_patterns (txns : List (ℤ × ℚ)) (today : ℤ) : Except String SeasonalRes :=
  if (get_historical_demand txns today 365).length < 30 then
    .error ("Insufficient data for seasonal analysis. Need at least 30 days.")
  else if (seasonal_daily txns today).length < 30 then
    .ok { seasonal_detected := false, reason := some ("Insufficient continuous data"),
          day_of_week_pattern := [], cv_sq := 0, data_points := 0 }
  else
    .ok { seasonal_detected := decide (1 / 25 < seasonal_cv_sq (seasonal_daily txns today)),
          reason := none,
          day_of_week_pattern := (List.range 7).map (fun k =>
            if weekday_present (seasonal_daily txns today) k then
              weekday_mean (seasonal_daily txns today) k
            else 0),
          cv_sq := seasonal_cv_sq (seasonal_daily txns today),
          data_points := (seasonal_daily txns today).length }

/-- Example history: 35 consecutive days with demand 10 on weekday 0 and
demand 0 on every other day, a strong day-of-week pattern. -/
def exTx35 : List (ℤ × ℚ) :=
  (List.range 35).map (fun i => ((i : ℤ), if (i : ℤ) % 7 = 0 then (10 : ℚ) else 0))

/-- Seasonal analysis result on exTx35: detected, with squared
coefficient of variation 7. -/
def exSR35 : SeasonalRes :=
  { seasonal_detected := true, reason := none,
    day_of_week_pattern := [10, 0, 0, 0, 0, 0, 0], cv_sq := 7, data_points := 35 }

/-- Z-score lookup for a service level: the fixed table of the source with
default 1.65 for unlisted levels. -/
def z_score_for (service_level : ℚ) : ℚ :=
  if service_level = 9 / 10 then 32 / 25
  else if service_level = 19 / 20 then 33 / 20
  else if service_level = 99 / 100 then 233 / 100
  else 33 / 20

/-- Result dictionary of calculate_reorder_point.  The supplier lead time
and the product are resolved by the caller here: the source looks the
product and its supplier up in the store and defaults the lead time to 7
days; that resolved lead time is a parameter of the embedding. -/
structure ReorderResult where
  reorder_point : ℚ
  lead_time_demand : ℚ
  safety_stock : ℚ
  daily_demand : ℚ
  lead_time_days : ℕ
  service_level : ℚ
  z_score : ℚ
deriving DecidableEq

/-- calculate_reorder_point: daily demand from the 30-day auto forecast,
rejected when not positive; lead-time demand, safety stock with the fixed
0.3 variability factor, and their sum, each rounded to two decimals in the
returned dictionary. -/
def calculate_reorder_point (txns : List (ℤ × ℚ)) (today : ℤ) (fit : FitOracle)
    (lead_time_days : ℕ) (service_level : ℚ) : Except String ReorderResult :=
  match generate_forecast txns today 30 ("auto") fit with
  | .error e => .error ("Cannot estimate demand: " ++ e)
  | .ok fr =>
    if fr.daily_average ≤ 0 then .error ("Daily demand must be positive")
    else
      .ok { reorder_point := round2 (fr.daily_average * lead_time_days +
              z_score_for service_level * (fr.daily_average * lead_time_days) * (3 / 10))
            lead_time_demand := round2 (fr.daily_average * lead_time_days)
            safety_stock := round2 (z_score_for service_level *
              (fr.daily_average * lead_time_days) * (3 / 10))
            daily_demand := round2 fr.daily_average
            lead_time_days := lead_time_days
            service_level := service_level
            z_score := z_score_for service_level }

open Classical in
/-- Round a real to the nearest integer with ties to even, the behaviour
of Python round on the mathematical value. -/
noncomputable def roundHalfEvenR (y : ℝ) : ℤ :=
  if y - ⌊y⌋ = 1 / 2 then (if ⌊y⌋ % 2 = 0 then ⌊y⌋ else ⌊y⌋ + 1)
  else ⌊y + 1 / 2⌋

/-- Round a real to k decimal places, as Python round(x, k). -/
noncomputable def roundDecR (k : ℕ) (x : ℝ) : ℝ :=
  (roundHalfEvenR ((10 : ℝ) ^ k * x) : ℝ) / (10 : ℝ) ^ k

/-- The unrounded economic order quantity: the square root of
2 * annual demand * ordering cost / holding cost per unit. -/
noncomputable def eoq_raw (d s hc : ℚ) : ℝ :=
  Real.sqrt ((2 * d * s / hc : ℚ) : ℝ)

/-- Result dictionary of calculate_eoq. -/
structure EoqResult where
  eoq : ℝ
  annual_demand : ℚ
  number_of_orders_per_year : ℝ
  time_between_orders_days : ℝ
  total_annual_cost : ℝ
  ordering_cost : ℚ
  holding_cost_rate : ℚ
  unit_cost : ℚ
  holding_cost_per_unit : ℚ

/-- calculate_eoq: the annual demand is taken as supplied or extrapolated
from the 90-day auto forecast, rejected when not positive; the classical
EOQ square-root formula and its derived metrics follow, rounded in the
returned dictionary.  A zero holding cost or a zero ordering cost makes
the Python arithmetic raise (division by zero, or by a zero EOQ), and a
negative radicand raises a math domain error; the blanket handler of the
source turns each of these into an error result. -/
noncomputable def calculate_eoq (txns : List (ℤ × ℚ)) (today : ℤ) (fit : FitOracle)
    (annual_demand : Option ℚ) (ordering_cost holding_cost_rate unit_cost : ℚ) :
    Except String EoqResult :=
  match (match annual_demand with
    | some a => Except.ok a
    | none =>
      match generate_forecast txns today 90 ("auto") fit with
      | .error e => .error ("Cannot estimate demand: " ++ e)
      | .ok fr => .ok (fr.total_forecast / 90 * 365)) with
  | .error e => .error e
  | .ok d =>
    if d ≤ 0 then .error ("Annual demand must be positive")
    else if unit_cost * holding_cost_rate = 0 then
      .error ("EOQ calculation failed: float division by zero")
    else if 2 * d * ordering_cost / (unit_cost * holding_cost_rate) < 0 then
      .error ("EOQ calculation failed: math domain error")
    else if 2 * d * ordering_cost / (unit_cost * holding_cost_rate) = 0 then
      .error ("EOQ calculation failed: float division by zero")
    else
      .ok { eoq := roundDecR 2 (eoq_raw d ordering_cost (unit_cost * holding_cost_rate))
            annual_demand := round2 d
            number_of_orders_per_year := roundDecR 2
              ((d : ℝ) / eoq_raw d ordering_cost (unit_cost * holding_cost_rate))
            time_between_orders_days := roundDecR 1
              (365 / ((d : ℝ) / eoq_raw d ordering_cost (unit_cost * holding_cost_rate)))
            total_annual_cost := roundDecR 2
              (((d : ℝ) / eoq_raw d ordering_cost (unit_cost * holding_cost_rate)) * (ordering_cost : ℚ) +
               (eoq_raw d ordering_cost (unit_cost * holding_cost_rate) / 2) *
                ((unit_cost * holding_cost_rate : ℚ) : ℝ))
            ordering_cost := ordering_cost
            holding_cost_rate := holding_cost_rate
            unit_cost := unit_cost
            holding_cost_per_unit := round2 (unit_cost * holding_cost_rate) }

/-- Result dictionary of calculate_safety_stock. -/
structure SafetyStockResult where
  safety_stock : ℝ
  service_level : ℚ
  daily_demand : ℚ
  demand_variability : ℝ
  lead_time_days : ℕ
  annual_holding_cost : ℝ
  z_score : ℚ

/-- Demand variability estimated from 60 days of history: the sample
standard deviation over the mean of the daily-resampled demand when more
than 7 distinct days exist and the mean is positive, 0.3 otherwise. -/
noncomputable def estimate_demand_variability (txns : List (ℤ × ℚ)) (today : ℤ) : ℝ :=
  if 7 < (get_historical_demand txns today 60).length then
    (if 0 < listMean (resample_daily (get_historical_demand txns today 60)) then
      Real.sqrt ((sampleVar (resample_daily (get_historical_demand txns today 60)) : ℚ) : ℝ) /
        ((listMean (resample_daily (get_historical_demand txns today 60)) : ℚ) : ℝ)
    else 3 / 10)
  else 3 / 10

/-- calculate_safety_stock: daily demand from the 30-day auto forecast
(with no positivity check, unlike calculate_reorder_point), variability
supplied or estimated, safety stock scaled by the square root of the lead
time, and the annual holding cost of that stock at the fixed local 25
percent holding rate. -/
noncomputable def calculate_safety_stock (txns : List (ℤ × ℚ)) (today : ℤ) (fit : FitOracle)
    (lead_time_days : ℕ) (service_level : ℚ) (demand_variability : Option ℚ)
    (unit_cost : ℚ) : Except String SafetyStockResult :=
  match generate_forecast txns today 30 ("auto") fit with
  | .error e => .error ("Cannot estimate demand: " ++ e)
  | .ok fr =>
    .ok { safety_stock := roundDecR 2 ((z_score_for service_level : ℝ) *
            Real.sqrt (lead_time_days : ℝ) * (fr.daily_average : ℝ) *
            (match demand_variability with
              | some v => (v : ℝ)
              | none => estimate_demand_variability txns today))
          service_level := service_level
          daily_demand := round2 fr.daily_average
          demand_variability := roundDecR 3
            (match demand_variability with
              | some v => (v : ℝ)
              | none => estimate_demand_variability txns today)
          lead_time_days := lead_time_days
          annual_holding_cost := roundDecR 2 (((z_score_for service_level : ℝ) *
            Real.sqrt (lead_time_days : ℝ) * (fr.daily_average : ℝ) *
            (match demand_variability with
              | some v => (v : ℝ)
              | none => estimate_demand_variability txns today)) * (unit_cost : ℝ) * (1 / 4))
          z_score := z_score_for service_level }

/-- Rank of a priority string in the sort of the recommendation list: the
priority_order dictionary of the source with default 3. -/
def priority_order_rank (p : String) : ℕ :=
  if p = "HIGH" then 0
  else if p = "MEDIUM" then 1
  else if p = "LOW" then 2
  else 3

/-- One product joined with its inventory row, as iterated by
get_optimization_recommendations, with the outcome of its per-product
calculate_eoq call. -/
structure OptItem where
  sku : String
  name : String
  current_stock : ℚ
  reorder_point : ℚ
  eoq_result : Except String EoqResult

/-- One entry of the recommendation list.  The estimated days of stock of
the source reads a daily_demand key that calculate_eoq never returns, so
the entry is always the None branch. -/
structure Recommendation where
  sku : String
  product_name : String
  current_stock : ℚ
  reorder_point : ℚ
  recommended_order_qty : ℝ
  recommendation : String
  priority : String
  estimated_days_of_stock : Option ℝ

/-- Build the recommendation entry for a product whose EOQ call
succeeded, classifying against the reorder point. -/
noncomputable def mk_recommendation (it : OptItem) (e : EoqResult) : Recommendation :=
  { sku := it.sku
    product_name := it.name
    current_stock := it.current_stock
    reorder_point := it.reorder_point
    recommended_order_qty := roundDecR 0 e.eoq
    recommendation :=
      if it.current_stock ≤ it.reorder_point then "REORDER_NOW"
      else if it.current_stock ≤ it.reorder_point * (3 / 2) then "MONITOR_CLOSELY"
      else "ADEQUATE_STOCK"
    priority :=
      if it.current_stock ≤ it.reorder_point then "HIGH"
      else if it.current_stock ≤ it.reorder_point * (3 / 2) then "MEDIUM"
      else "LOW"
    estimated_days_of_stock := none }

/-- The unsorted recommendation list: products whose EOQ calculation
errors contribute nothing. -/
noncomputable def build_recommendations (items : List OptItem) : List Recommendation :=
  items.filterMap (fun it =>
    match it.eoq_result with
    | .ok e => some (mk_recommendation it e)
    | .error _ => none)

/-- The final sort: Python list.sort is stable, and on a key with at most
four values a stable sort is exactly the concatenation of the key buckets
in input order. -/
def sort_by_priority (l : List Recommendation) : List Recommendation :=
  (l.filter (fun r => priority_order_rank r.priority = 0)) ++
  (l.filter (fun r => priority_order_rank r.priority = 1)) ++
  (l.filter (fun r => priority_order_rank r.priority = 2)) ++
  (l.filter (fun r => priority_order_rank r.priority = 3))

/-- get_optimization_recommendations over the joined product rows. -/
noncomputable def get_optimization_recommendations (items : List OptItem) : List Recommendation :=
  sort_by_priority (build_recommendations items)

/-- Example history over 14 days whose total demand is 18: one unit on
each of 13 days, five units on the last day, so the auto forecast daily
average is the fraction 9/7. -/
def exTx18 : List (ℤ × ℚ) := (List.range 13).map (fun i => ((i : ℤ), (1 : ℚ))) ++ [(13, 5)]

/-- Reorder-point result on exTx18 with lead time 1: rounding makes the
reported reorder point 1.92 while the rounded lead-time demand 1.29 plus
the rounded safety stock 0.64 is 1.93. -/
def exRR18 : ReorderResult :=
  { reorder_point := 48 / 25, lead_time_demand := 129 / 100, safety_stock := 16 / 25,
    daily_demand := 129 / 100, lead_time_days := 1, service_level := 19 / 20,
    z_score := 33 / 20 }

/-- Reorder-point result on exTx14 with lead time 7: every quantity is
exact to two decimals, so no rounding occurs. -/
def exRR14 : ReorderResult :=
  { reorder_point := 2093 / 20, lead_time_demand := 70, safety_stock := 693 / 20,
    daily_demand := 10, lead_time_days := 7, service_level := 19 / 20,
    z_score := 33 / 20 }

/-- Example history: 14 consecutive days of zero demand. -/
def exTx0 : List (ℤ × ℚ) := (List.range 14).map (fun i => ((i : ℤ), (0 : ℚ)))

/-- The 30-day auto forecast on exTx0: exponential smoothing fails under
the failing oracle and the moving average reports a zero daily average. -/
def exFR0 : ForecastRes :=
  { forecast_method := "moving_average", horizon_days := 30, total_forecast := 0,
    daily_average := 0, forecast_series := none, data_points := 14 }

/-- A successful EOQ result used by the recommendation examples. -/
noncomputable def exEoqOk : EoqResult :=
  { eoq := 100, annual_demand := 1000, number_of_orders_per_year := 10,
    time_between_orders_days := 36, total_annual_cost := 500, ordering_cost := 50,
    holding_cost_rate := 1 / 4, unit_cost := 20, holding_cost_per_unit := 5 }

/-- Example catalog: a LOW product first, then the HIGH product of the
spec example (stock 5, reorder point 10), a MEDIUM product, and one whose
EOQ calculation failed. -/
noncomputable def exItems : List OptItem :=
  [ { sku := "A", name := "alpha", current_stock := 20, reorder_point := 10,
      eoq_result := .ok exEoqOk },
    { sku := "B", name := "beta", current_stock := 5, reorder_point := 10,
      eoq_result := .ok exEoqOk },
    { sku := "C", name := "gamma", current_stock := 14, reorder_point := 10,
      eoq_result := .ok exEoqOk },
    { sku := "D", name := "delta", current_stock := 1, reorder_point := 10,
      eoq_result := .error ("Cannot estimate demand: no history") } ]

/-- Every element of the clamped trend extrapolation is nonnegative. -/
lemma trend_forecast_series_nonneg (y : List ℚ) (h : ℕ) :
    ∀ v ∈ trend_forecast_series y h, 0 ≤ v := by
  intro v hv
  unfold trend_forecast_series at hv
  obtain ⟨j, _, rfl⟩ := List.mem_map.mp hv
  exact le_max_right _ _

/-- C1: for every horizon 1 or larger and each of the three forecasting
methods, a non-error result satisfies daily_average equal to
total_forecast divided by the horizon, and when a per-day series is
present its sum equals total_forecast. -/
theorem forecast_result_invariants (txns : List (ℤ × ℚ)) (today : ℤ) (h window : ℕ)
    (fit : FitOracle) (hh : 1 ≤ h) :
    (∀ r, moving_average_forecast txns today h window = .ok r →
        r.daily_average = r.total_forecast / h ∧
        ∀ s, r.forecast_series = some s → r.total_forecast = s.sum) ∧
    (∀ r, exponential_smoothing_forecast txns today h fit = .ok r →
        r.daily_average = r.total_forecast / h ∧
        ∀ s, r.forecast_series = some s → r.total_forecast = s.sum) ∧
    (∀ r, trend_analysis_forecast txns today h = .ok r →
        r.daily_average = r.total_forecast / h ∧
        ∀ s, r.forecast_series = some s → r.total_forecast = s.sum) := by
  have hq : (h : ℚ) ≠ 0 := Nat.cast_ne_zero.mpr (by omega)
  refine ⟨?_, ?_, ?_⟩
  · intro r hr
    unfold moving_average_forecast at hr
    split at hr
    · cases hr
    · split at hr
      · cases hr
      · cases Except.ok.inj hr
        refine ⟨(mul_div_cancel_right₀ _ hq).symm, ?_⟩
        intro s hs
        cases hs
  · intro r hr
    unfold exponential_smoothing_forecast at hr
    split at hr
    · cases hr
    · split at hr
      · split at hr
        · cases Except.ok.inj hr
          exact ⟨rfl, fun s hs => by cases Option.some.inj hs; rfl⟩
        · split at hr
          · cases Except.ok.inj hr
            exact ⟨rfl, fun s hs => by cases Option.some.inj hs; rfl⟩
          · cases hr
      · cases Except.ok.inj hr
        exact ⟨rfl, fun s hs => by cases Option.some.inj hs; rfl⟩
  · intro r hr
    unfold trend_analysis_forecast at hr
    split at hr
    · cases hr
    · cases Except.ok.inj hr
      exact ⟨rfl, fun s hs => by cases Option.some.inj hs; rfl⟩

/-- Witness for C1: on 14 constant-demand days with horizon 7 the
moving-average result has daily_average 10 equal to 70 / 7. -/
theorem forecast_result_invariants_witness :
    (1 : ℕ) ≤ 7 ∧ exMA14.daily_average = exMA14.total_forecast / 7 := by
  refine ⟨by decide, ?_⟩
  exact ((forecast_result_invariants exTx14 13 7 14 failFit (by decide)).1 exMA14 (by decide)).1

/-- C2: the auto mode of generate_forecast fails below 7 distinct days
with a message mentioning 7, dispatches to moving average with window
min 7 available_days for 7 to 13 days, and for 14 or more days returns
the exponential smoothing result unless that call errors, in which case
it returns the moving-average forecast. -/
theorem generate_forecast_auto_policy (txns : List (ℤ × ℚ)) (today : ℤ) (horizon : ℕ)
    (fit : FitOracle) :
    (available_days txns today < 7 →
      generate_forecast txns today horizon ("auto") fit = .error auto_min_message ∧
      Char.ofNat 55 ∈ auto_min_message.toList) ∧
    (7 ≤ available_days txns today → available_days txns today < 14 →
      generate_forecast txns today horizon ("auto") fit =
        moving_average_forecast txns today horizon (min 7 (available_days txns today))) ∧
    (14 ≤ available_days txns today →
      (∀ r, exponential_smoothing_forecast txns today horizon fit = .ok r →
        generate_forecast txns today horizon ("auto") fit = .ok r) ∧
      (∀ e, exponential_smoothing_forecast txns today horizon fit = .error e →
        generate_forecast txns today horizon ("auto") fit =
          moving_average_forecast txns today horizon 14)) := by
  rw [generate_forecast]
  rw [if_neg (by decide), if_neg (by decide), if_neg (by decide), if_pos rfl]
  refine ⟨?_, ?_, ?_⟩
  · intro h7
    rw [if_pos h7]
    exact ⟨rfl, by decide⟩
  · intro h7 h14
    rw [if_neg (by omega), if_pos h14]
  · intro h14
    rw [if_neg (by omega), if_neg (by omega)]
    constructor
    · intro r hr
      rw [hr]
    · intro e he
      rw [he]

/-- Witness for C2: a 5-day history errors with the 7-day minimum message
and an 8-day history dispatches to the 7-day moving average. -/
theorem generate_forecast_auto_policy_witness :
    (available_days exTx5 4 < 7 ∧
      generate_forecast exTx5 4 7 ("auto") failFit = .error auto_min_message ∧
      Char.ofNat 55 ∈ auto_min_message.toList) ∧
    (7 ≤ available_days exTx8 7 ∧ available_days exTx8 7 < 14 ∧
      generate_forecast exTx8 7 9 ("auto") failFit =
        moving_average_forecast exTx8 7 9 (min 7 (available_days exTx8 7))) := by
  refine ⟨⟨by decide, ?_⟩, ⟨by decide, by decide, ?_⟩⟩
  · exact (generate_forecast_auto_policy exTx5 4 7 failFit).1 (by decide)
  · exact (generate_forecast_auto_policy exTx8 7 9 failFit).2.1 (by decide) (by decide)

/-- C7: a successful trend forecast has only nonnegative values in its
per-day series, and its total and daily average are nonnegative, for any
input series and horizon. -/
theorem trend_forecast_nonneg (txns : List (ℤ × ℚ)) (today : ℤ) (horizon : ℕ)
    (r : ForecastRes) (hr : trend_analysis_forecast txns today horizon = .ok r) :
    (∀ s, r.forecast_series = some s → ∀ v ∈ s, 0 ≤ v) ∧
    0 ≤ r.total_forecast ∧ 0 ≤ r.daily_average := by
  unfold trend_analysis_forecast at hr
  split at hr
  · cases hr
  · cases Except.ok.inj hr
    have hmem := trend_forecast_series_nonneg
      (resample_daily (get_historical_demand txns today 60)) horizon
    refine ⟨?_, ?_, ?_⟩
    · intro s hs
      cases Option.some.inj hs
      exact hmem
    · exact List.sum_nonneg hmem
    · exact div_nonneg (List.sum_nonneg hmem) (Nat.cast_nonneg _)

/-- Witness for C7: on a sharply decreasing 10-day history with horizon 3
the fitted slope is -10, the extrapolated line is negative everywhere, and
the reported forecast is clamped to zero. -/
theorem trend_forecast_nonneg_witness :
    trend_analysis_forecast exTx10 9 3 = .ok exTR10 ∧
    linreg_slope (resample_daily (get_historical_demand exTx10 9 60)) = -10 ∧
    0 ≤ exTR10.total_forecast := by
  refine ⟨by decide, by decide, ?_⟩
  exact (trend_forecast_nonneg exTx10 9 3 exTR10 (by decide)).2.1

/-- C4 counterexample: with records on days 0 and 2 only and window 2, the
source averages the last two recorded rows and reports 10, while the
zero-filled trailing calendar-day average of the claim is 5. -/
theorem moving_average_zero_fill_cex :
    moving_average_forecast exTxGap 2 1 2 = .ok exMAGap ∧
    spec_trailing_sma exTxGap 2 2 = 5 ∧
    exMAGap.daily_average ≠ spec_trailing_sma exTxGap 2 2 := by
  exact ⟨by decide, by decide, by decide⟩

/-- C4 amended: a successful moving-average forecast averages the most
recent window recorded daily rows of the series (days without records are
skipped, not zero-filled), the length guard makes the overall-mean
fallback unreachable, and total_forecast is daily_average times horizon. -/
theorem moving_average_formula (txns : List (ℤ × ℚ)) (today : ℤ) (horizon window : ℕ)
    (r : ForecastRes) (hr : moving_average_forecast txns today horizon window = .ok r) :
    window ≤ (get_historical_demand txns today (2 * window)).length ∧
    r.daily_average =
      (((get_historical_demand txns today (2 * window)).map Prod.snd).drop
        ((get_historical_demand txns today (2 * window)).length - window)).sum / window ∧
    r.total_forecast = r.daily_average * horizon := by
  unfold moving_average_forecast at hr
  split at hr
  · cases hr
  · split at hr
    · cases hr
    · cases Except.ok.inj hr
      have hw : window ≤ (get_historical_demand txns today (2 * window)).length := by omega
      refine ⟨hw, ?_, rfl⟩
      show last_moving_average (get_historical_demand txns today (2 * window)) window = _
      unfold last_moving_average
      rw [if_pos hw]

/-- Witness for C4: 14 constant-demand days with window 14 and horizon 7
give daily_average 10 and total_forecast 70, the example of the spec. -/
theorem moving_average_formula_witness :
    moving_average_forecast exTx14 13 7 14 = .ok exMA14 ∧
    exMA14.daily_average = 10 ∧ exMA14.total_forecast = 70 ∧
    exMA14.total_forecast = exMA14.daily_average * 7 := by
  refine ⟨by decide, by decide, by decide, ?_⟩
  exact (moving_average_formula exTx14 13 7 14 exMA14 (by decide)).2.2

/-- C3: the configuration passed to the smoothing fit carries an additive
trend component and no seasonal component at 14 resampled days exactly as
at 35, because both branches of the source if/else are identical; below
the 28-day threshold the model is not trend-free. -/
theorem smoothing_config_trend_always_add :
    (smoothing_model_config 14).trend = some ("add") ∧
    (smoothing_model_config 14).seasonal = none ∧
    smoothing_model_config 14 = smoothing_model_config 35 := by
  exact ⟨by decide, by decide, by decide⟩

/-- Comparing the coefficient of variation with one fifth is the same as
comparing its square with one twenty-fifth, for a positive mean. -/
lemma seasonal_cv_bridge (v m : ℚ) (hm : 0 < m) :
    (1 / 25 < v / m ^ 2) ↔ ((1 / 5 : ℝ) < Real.sqrt (v : ℝ) / (m : ℝ)) := by
  have hmR : (0 : ℝ) < (m : ℝ) := by exact_mod_cast hm
  rw [lt_div_iff₀ hmR, Real.lt_sqrt (by positivity), lt_div_iff₀ (show (0 : ℚ) < m ^ 2 by positivity)]
  constructor
  · intro h
    have hq : (((1 / 25 * m ^ 2 : ℚ)) : ℝ) < ((v : ℚ) : ℝ) := by exact_mod_cast h
    calc ((1 : ℝ) / 5 * m) ^ 2 = ((1 / 25 * m ^ 2 : ℚ) : ℝ) := by push_cast; ring
    _ < (v : ℝ) := hq
  · intro h
    have hq : (((1 / 25 * m ^ 2 : ℚ)) : ℝ) < ((v : ℚ) : ℝ) := by
      calc ((1 / 25 * m ^ 2 : ℚ) : ℝ) = ((1 : ℝ) / 5 * m) ^ 2 := by push_cast; ring
      _ < (v : ℝ) := h
    exact_mod_cast hq

/-- C5 counterexample: a 5-day history makes get_seasonal_patterns return
an error result, not a non-error result with seasonal_detected false. -/
theorem seasonal_short_series_cex :
    get_seasonal_patterns exTx5 4 =
      .error ("Insufficient data for seasonal analysis. Need at least 30 days.") := by
  decide

set_option maxRecDepth 4000 in
/-- C5 amended: below 30 distinct days the seasonal analysis returns an
error result mentioning the 30-day minimum; on a successful analysis of a
resampled series of at least 30 days, seasonality is detected exactly when
the coefficient of variation std over mean of the weekday mean demands
exceeds 0.2 when that mean is positive, and never when the mean is not
positive. -/
theorem seasonal_patterns_behavior (txns : List (ℤ × ℚ)) (today : ℤ) :
    ((get_historical_demand txns today 365).length < 30 →
      get_seasonal_patterns txns today =
        .error ("Insufficient data for seasonal analysis. Need at least 30 days.")) ∧
    (∀ r, get_seasonal_patterns txns today = .ok r →
      30 ≤ (seasonal_daily txns today).length →
      (0 < listMean (weekday_means (seasonal_daily txns today)) →
        (r.seasonal_detected = true ↔
          (1 / 5 : ℝ) < Real.sqrt ((sampleVar (weekday_means (seasonal_daily txns today)) : ℚ) : ℝ) /
            ((listMean (weekday_means (seasonal_daily txns today)) : ℚ) : ℝ))) ∧
      (listMean (weekday_means (seasonal_daily txns today)) ≤ 0 →
        r.seasonal_detected = false)) := by
  constructor
  · intro h30
    unfold get_seasonal_patterns
    rw [if_pos h30]
  · intro r hr hlen
    unfold get_seasonal_patterns at hr
    split at hr
    · cases hr
    · split at hr
      · exfalso; omega
      · cases Except.ok.inj hr
        constructor
        · intro hm
          show decide (1 / 25 < seasonal_cv_sq (seasonal_daily txns today)) = true ↔ _
          rw [decide_eq_true_eq]
          unfold seasonal_cv_sq
          rw [if_pos hm]
          exact seasonal_cv_bridge _ _ hm
        · intro hm
          show decide (1 / 25 < seasonal_cv_sq (seasonal_daily txns today)) = false
          unfold seasonal_cv_sq
          rw [if_neg (not_lt.mpr hm)]
          decide

set_option maxRecDepth 100000 in
/-- Witness for C5: the 5-day history hits the error branch, and the
35-day weekday-patterned history is detected seasonal, its coefficient of
variation exceeding one fifth. -/
theorem seasonal_patterns_behavior_witness :
    get_seasonal_patterns exTx5 4 =
      .error ("Insufficient data for seasonal analysis. Need at least 30 days.") ∧
    get_seasonal_patterns exTx35 34 = .ok exSR35 ∧
    (exSR35.seasonal_detected = true ↔
      (1 / 5 : ℝ) < Real.sqrt ((sampleVar (weekday_means (seasonal_daily exTx35 34)) : ℚ) : ℝ) /
        ((listMean (weekday_means (seasonal_daily exTx35 34)) : ℚ) : ℝ)) := by
  refine ⟨(seasonal_patterns_behavior exTx5 4).1 (by decide), by decide, ?_⟩
  exact (((seasonal_patterns_behavior exTx35 34).2 exSR35 (by decide) (by decide)).1 (by decide))

/-- C6 counterexample: on exTx18 with lead time 1 the returned fields are
rounded to two decimals, and the reported reorder point 1.92 differs from
the sum 1.93 of the reported lead-time demand and safety stock. -/
theorem reorder_point_rounding_cex :
    calculate_reorder_point exTx18 13 failFit 1 (19 / 20) = .ok exRR18 ∧
    exRR18.reorder_point ≠ exRR18.lead_time_demand + exRR18.safety_stock := by
  exact ⟨by decide, by decide⟩

/-- C6 amended: every successful reorder-point result is built from a
positive forecast daily average, with lead_time_demand, safety_stock and
reorder_point the two-decimal roundings of d times lead time, of z times
that times 0.3, and of their exact sum, the z-score coming from the fixed
table with default 1.65; the identity reorder point equals lead-time
demand plus safety stock holds for the unrounded quantities, hence for
the reported fields only up to rounding. -/
theorem reorder_point_formula (txns : List (ℤ × ℚ)) (today : ℤ) (fit : FitOracle)
    (lead_time_days : ℕ) (service_level : ℚ) (r : ReorderResult)
    (hr : calculate_reorder_point txns today fit lead_time_days service_level = .ok r) :
    ∃ fr, generate_forecast txns today 30 ("auto") fit = .ok fr ∧ 0 < fr.daily_average ∧
      r.lead_time_demand = round2 (fr.daily_average * lead_time_days) ∧
      r.safety_stock = round2 (z_score_for service_level *
        (fr.daily_average * lead_time_days) * (3 / 10)) ∧
      r.reorder_point = round2 (fr.daily_average * lead_time_days +
        z_score_for service_level * (fr.daily_average * lead_time_days) * (3 / 10)) ∧
      r.z_score = z_score_for service_level ∧
      z_score_for service_level =
        (if service_level = 9 / 10 then 32 / 25
         else if service_level = 19 / 20 then 33 / 20
         else if service_level = 99 / 100 then 233 / 100
         else 33 / 20) := by
  unfold calculate_reorder_point at hr
  cases hfc : generate_forecast txns today 30 ("auto") fit with
  | error e => rw [hfc] at hr; simp only [] at hr; cases hr
  | ok fr =>
    rw [hfc] at hr
    simp only [] at hr
    by_cases hd : fr.daily_average ≤ 0
    · rw [if_pos hd] at hr
      cases hr
    · rw [if_neg hd] at hr
      cases Except.ok.inj hr
      exact ⟨fr, rfl, not_le.mp hd, rfl, rfl, rfl, rfl, rfl⟩

/-- Witness for C6: on 14 constant-demand days with lead time 7 the
result is reorder point 104.65 from lead-time demand 70 and safety stock
34.65, and the formula theorem applies. -/
theorem reorder_point_formula_witness :
    calculate_reorder_point exTx14 13 failFit 7 (19 / 20) = .ok exRR14 ∧
    ∃ fr, generate_forecast exTx14 13 30 ("auto") failFit = .ok fr ∧ 0 < fr.daily_average ∧
      exRR14.lead_time_demand = round2 (fr.daily_average * 7) ∧
      exRR14.safety_stock = round2 (z_score_for (19 / 20) * (fr.daily_average * 7) * (3 / 10)) ∧
      exRR14.reorder_point = round2 (fr.daily_average * 7 +
        z_score_for (19 / 20) * (fr.daily_average * 7) * (3 / 10)) ∧
      exRR14.z_score = z_score_for (19 / 20) ∧
      z_score_for (19 / 20) =
        (if (19 / 20 : ℚ) = 9 / 10 then 32 / 25
         else if (19 / 20 : ℚ) = 19 / 20 then 33 / 20
         else if (19 / 20 : ℚ) = 99 / 100 then 233 / 100
         else 33 / 20) := by
  refine ⟨by decide, ?_⟩
  exact reorder_point_formula exTx14 13 failFit 7 (19 / 20) exRR14 (by decide)

/-- Rounding the real number zero gives zero at the integer step. -/
lemma roundHalfEvenR_zero : roundHalfEvenR 0 = 0 := by
  unfold roundHalfEvenR
  rw [if_neg]
  · exact Int.floor_eq_iff.mpr ⟨by norm_num, by norm_num⟩
  · rw [Int.floor_zero]
    norm_num

/-- Rounding the real number zero gives zero at every precision. -/
lemma roundDecR_zero (k : ℕ) : roundDecR k 0 = 0 := by
  unfold roundDecR
  rw [mul_zero, roundHalfEvenR_zero]
  simp

/-- C10: when the 30-day forecast succeeds with zero daily average,
calculate_safety_stock does not reject the demand: it returns a non-error
result with zero safety stock and zero annual holding cost, while
calculate_reorder_point rejects the same forecast with the invalid-demand
error. -/
theorem safety_stock_zero_demand (txns : List (ℤ × ℚ)) (today : ℤ) (fit : FitOracle)
    (lead_time_days lt2 : ℕ) (service_level : ℚ) (demand_variability : Option ℚ)
    (unit_cost : ℚ) (fr : ForecastRes)
    (hfc : generate_forecast txns today 30 ("auto") fit = .ok fr)
    (hd : fr.daily_average = 0) :
    (∃ s, calculate_safety_stock txns today fit lead_time_days service_level
        demand_variability unit_cost = .ok s ∧
      s.safety_stock = 0 ∧ s.annual_holding_cost = 0) ∧
    calculate_reorder_point txns today fit lt2 service_level =
      .error ("Daily demand must be positive") := by
  constructor
  · unfold calculate_safety_stock
    rw [hfc]
    simp only []
    refine ⟨_, rfl, ?_, ?_⟩
    · show roundDecR 2 _ = 0
      rw [show (z_score_for service_level : ℝ) * Real.sqrt (lead_time_days : ℝ) *
            (fr.daily_average : ℝ) *
            (match demand_variability with
              | some v => (v : ℝ)
              | none => estimate_demand_variability txns today) = 0 by rw [hd]; push_cast; ring]
      exact roundDecR_zero 2
    · show roundDecR 2 _ = 0
      rw [show ((z_score_for service_level : ℝ) * Real.sqrt (lead_time_days : ℝ) *
            (fr.daily_average : ℝ) *
            (match demand_variability with
              | some v => (v : ℝ)
              | none => estimate_demand_variability txns today)) * (unit_cost : ℝ) * (1 / 4) = 0 by
          rw [hd]; push_cast; ring]
      exact roundDecR_zero 2
  · unfold calculate_reorder_point
    rw [hfc]
    simp only []
    rw [if_pos (le_of_eq hd)]

/-- Witness for C10: on 14 zero-demand days the safety stock call
succeeds with zeros while the reorder-point call errors. -/
theorem safety_stock_zero_demand_witness :
    (∃ s, calculate_safety_stock exTx0 13 failFit 4 (19 / 20) (some (3 / 10)) 10 = .ok s ∧
      s.safety_stock = 0 ∧ s.annual_holding_cost = 0) ∧
    calculate_reorder_point exTx0 13 failFit 7 (19 / 20) =
      .error ("Daily demand must be positive") := by
  exact safety_stock_zero_demand exTx0 13 failFit 4 7 (19 / 20) (some (3 / 10)) 10 exFR0
    (by decide) (by decide)

/-- Doubling the ordering cost scales the unrounded EOQ by the square
root of two, for any demand and holding cost. -/
lemma eoq_raw_scale (d s hc : ℚ) : eoq_raw d (2 * s) hc = Real.sqrt 2 * eoq_raw d s hc := by
  unfold eoq_raw
  rw [← Real.sqrt_mul (by norm_num : (0 : ℝ) ≤ 2)]
  congr 1
  push_cast
  ring

/-- C8 amended: the unrounded EOQ scales by exactly the square root of
two when the ordering cost doubles, the returned eoq field being the
two-decimal rounding of the scaled value (so the reported ratio is only
approximately the square root of two), and any supplied or derived annual
demand that is not positive yields the invalid-demand error. -/
theorem eoq_scaling (txns : List (ℤ × ℚ)) (today : ℤ) (fit : FitOracle)
    (d s rate c : ℚ) (hd : 0 < d) (hs : 0 < s) (hh : 0 < c * rate) :
    (calculate_eoq txns today fit (some d) (2 * s) rate c).map EoqResult.eoq =
      .ok (roundDecR 2 (Real.sqrt 2 * eoq_raw d s (c * rate))) ∧
    eoq_raw d (2 * s) (c * rate) = Real.sqrt 2 * eoq_raw d s (c * rate) ∧
    (calculate_eoq txns today fit (some d) s rate c).map EoqResult.eoq =
      .ok (roundDecR 2 (eoq_raw d s (c * rate))) ∧
    (∀ d', d' ≤ 0 → calculate_eoq txns today fit (some d') s rate c =
      .error ("Annual demand must be positive")) ∧
    (∀ fr : ForecastRes, generate_forecast txns today 90 ("auto") fit = .ok fr →
      fr.total_forecast ≤ 0 →
      calculate_eoq txns today fit none s rate c =
        .error ("Annual demand must be positive")) := by
  have hrad : 0 < 2 * d * s / (c * rate) := by positivity
  have hrad2 : 0 < 2 * d * (2 * s) / (c * rate) := by positivity
  refine ⟨?_, eoq_raw_scale d s (c * rate), ?_, ?_, ?_⟩
  · unfold calculate_eoq
    simp only []
    rw [if_neg (not_le.mpr hd), if_neg (ne_of_gt hh), if_neg (not_lt.mpr (le_of_lt hrad2)),
      if_neg (ne_of_gt hrad2)]
    rw [eoq_raw_scale]
    rfl
  · unfold calculate_eoq
    simp only []
    rw [if_neg (not_le.mpr hd), if_neg (ne_of_gt hh), if_neg (not_lt.mpr (le_of_lt hrad)),
      if_neg (ne_of_gt hrad)]
    rfl
  · intro d' hd'
    unfold calculate_eoq
    simp only []
    rw [if_pos hd']
  · intro fr hfc ht
    unfold calculate_eoq
    rw [hfc]
    simp only []
    rw [if_pos (by nlinarith [ht] : fr.total_forecast / 90 * 365 ≤ 0)]

/-- Witness for C8: at demand 1000, ordering cost 50, holding rate one
quarter and unit cost 20, the scaling identity holds and a negative
supplied demand errors. -/
theorem eoq_scaling_witness :
    eoq_raw 1000 (2 * 50) (20 * (1 / 4)) = Real.sqrt 2 * eoq_raw 1000 50 (20 * (1 / 4)) ∧
    calculate_eoq [] 0 failFit (some (-1)) 50 (1 / 4) 20 =
      .error ("Annual demand must be positive") := by
  have h := eoq_scaling [] 0 failFit 1000 50 (1 / 4) 20 (by norm_num) (by norm_num) (by norm_num)
  exact ⟨h.2.1, h.2.2.2.1 (-1) (by norm_num)⟩

/-- C8 counterexample: at supplied demand 1000, holding rate one quarter
and unit cost 20, doubling the ordering cost from 50 to 100 produces the
reported eoq 200.0, while the square root of two times the reported eoq
141.42 of the original call is strictly different, because both reported
fields are rounded to two decimals. -/
theorem eoq_rounded_scaling_cex :
    (calculate_eoq [] 0 failFit (some 1000) 100 (1 / 4) 20).map EoqResult.eoq ≠
    (calculate_eoq [] 0 failFit (some 1000) 50 (1 / 4) 20).map
      (fun r => Real.sqrt 2 * r.eoq) := by
  have hA : eoq_raw 1000 100 (20 * (1 / 4)) = 200 := by
    unfold eoq_raw
    rw [show ((2 * 1000 * 100 / (20 * (1 / 4)) : ℚ) : ℝ) = 200 ^ 2 by push_cast; norm_num]
    exact Real.sqrt_sq (by norm_num)
  have hB : eoq_raw 1000 50 (20 * (1 / 4)) = 100 * Real.sqrt 2 := by
    unfold eoq_raw
    rw [show ((2 * 1000 * 50 / (20 * (1 / 4)) : ℚ) : ℝ) = 100 ^ 2 * 2 by push_cast; norm_num]
    rw [Real.sqrt_mul (by positivity) 2, Real.sqrt_sq (by norm_num)]
  have hlow : (1.4142 : ℝ) ≤ Real.sqrt 2 := (Real.le_sqrt' (by norm_num)).mpr (by norm_num)
  have hhigh : Real.sqrt 2 < 1.41425 := (Real.sqrt_lt' (by norm_num)).mpr (by norm_num)
  have h200 : roundDecR 2 (200 : ℝ) = 200 := by
    unfold roundDecR roundHalfEvenR
    rw [if_neg (by
      rw [(Int.floor_eq_iff.mpr ⟨by norm_num, by norm_num⟩ : ⌊(10 : ℝ) ^ 2 * 200⌋ = 20000)]
      norm_num)]
    rw [(Int.floor_eq_iff.mpr ⟨by norm_num, by norm_num⟩ : ⌊(10 : ℝ) ^ 2 * 200 + 1 / 2⌋ = 20000)]
    norm_num
  have hfl : ⌊(10 : ℝ) ^ 2 * (100 * Real.sqrt 2)⌋ = 14142 :=
    Int.floor_eq_iff.mpr ⟨by push_cast; nlinarith [hlow], by push_cast; nlinarith [hhigh]⟩
  have hroundB : roundDecR 2 (100 * Real.sqrt 2) = 14142 / 100 := by
    unfold roundDecR roundHalfEvenR
    rw [if_neg (by rw [hfl]; push_cast; intro heq; nlinarith [hhigh])]
    rw [(Int.floor_eq_iff.mpr ⟨by push_cast; nlinarith [hlow], by push_cast; nlinarith [hhigh]⟩ :
      ⌊(10 : ℝ) ^ 2 * (100 * Real.sqrt 2) + 1 / 2⌋ = 14142)]
    norm_num
  unfold calculate_eoq
  simp only []
  rw [if_neg (by norm_num : ¬((1000 : ℚ) ≤ 0)), if_neg (by norm_num : ¬((20 : ℚ) * (1 / 4) = 0)),
    if_neg (by norm_num : ¬(2 * (1000 : ℚ) * 100 / (20 * (1 / 4)) < 0)),
    if_neg (by norm_num : ¬(2 * (1000 : ℚ) * 100 / (20 * (1 / 4)) = 0)),
    if_neg (by norm_num : ¬(2 * (1000 : ℚ) * 50 / (20 * (1 / 4)) < 0)),
    if_neg (by norm_num : ¬(2 * (1000 : ℚ) * 50 / (20 * (1 / 4)) = 0))]
  simp only [Except.map]
  intro h
  have h' := Except.ok.inj h
  simp only [hA, hB, h200, hroundB] at h'
  have hsq : (Real.sqrt 2 * (14142 / 100)) ^ 2 = 40000 := by rw [← h']; norm_num
  rw [mul_pow, Real.sq_sqrt (by norm_num : (0 : ℝ) ≤ 2)] at hsq
  norm_num at hsq

/-- The priority rank takes one of the four values 0 to 3. -/
lemma rank_le_three (p : String) : priority_order_rank p ≤ 3 := by
  unfold priority_order_rank
  repeat' split
  all_goals omega

/-- Membership in a rank bucket fixes the rank. -/
lemma mem_filter_rank (l : List Recommendation) (k : ℕ) (a : Recommendation)
    (ha : a ∈ l.filter (fun r => priority_order_rank r.priority = k)) :
    priority_order_rank a.priority = k := by
  exact of_decide_eq_true (List.mem_filter.mp ha).2

/-- Filtering a bucket by a different rank gives the empty list. -/
lemma filter_rank_of_ne (l : List Recommendation) (j k : ℕ) (h : j ≠ k) :
    (l.filter (fun r => priority_order_rank r.priority = j)).filter
      (fun r => priority_order_rank r.priority = k) = [] := by
  rw [List.filter_filter]
  apply List.filter_eq_nil_iff.mpr
  intro a _
  simp only [Bool.and_eq_true, decide_eq_true_eq]
  rintro ⟨hk, hj⟩
  omega

/-- Filtering a bucket by its own rank changes nothing. -/
lemma filter_rank_idem (l : List Recommendation) (k : ℕ) :
    (l.filter (fun r => priority_order_rank r.priority = k)).filter
      (fun r => priority_order_rank r.priority = k) =
    l.filter (fun r => priority_order_rank r.priority = k) := by
  rw [List.filter_filter]
  simp only [Bool.and_self]

/-- The four rank buckets partition the list, so their lengths sum to its
length. -/
lemma rank_buckets_length (l : List Recommendation) :
    ((l.filter (fun r => priority_order_rank r.priority = 0)).length +
      (l.filter (fun r => priority_order_rank r.priority = 1)).length +
      (l.filter (fun r => priority_order_rank r.priority = 2)).length +
      (l.filter (fun r => priority_order_rank r.priority = 3)).length) = l.length := by
  induction l with
  | nil => rfl
  | cons a t ih =>
    have h4 := rank_le_three a.priority
    simp only [List.filter_cons]
    by_cases h0 : priority_order_rank a.priority = 0
    · simp [h0]; omega
    · by_cases h1 : priority_order_rank a.priority = 1
      · simp [h0, h1]; omega
      · by_cases h2 : priority_order_rank a.priority = 2
        · simp [h0, h1, h2]; omega
        · have h3 : priority_order_rank a.priority = 3 := by omega
          simp [h0, h1, h2, h3]; omega

/-- The bucket sort keeps the length of the list. -/
lemma sort_by_priority_length (l : List Recommendation) :
    (sort_by_priority l).length = l.length := by
  unfold sort_by_priority
  simp only [List.length_append]
  have := rank_buckets_length l
  omega

/-- The unsorted recommendation list has one entry per product whose EOQ
call succeeded. -/
lemma build_recommendations_length (items : List OptItem) :
    (build_recommendations items).length =
      (items.filter (fun it => it.eoq_result.isOk)).length := by
  induction items with
  | nil => rfl
  | cons a t ih =>
    unfold build_recommendations at ih ⊢
    simp only [List.filterMap_cons, List.filter_cons]
    cases ha : a.eoq_result with
    | ok e => simp [ha, ih, Except.isOk, Except.toBool]
    | error e => simp [ha, ih, Except.isOk, Except.toBool]

/-- Each rank bucket is sorted, trivially: all ranks in it are equal. -/
lemma sorted_bucket (l : List Recommendation) (k : ℕ) :
    List.Sorted (fun a b => priority_order_rank a.priority ≤ priority_order_rank b.priority)
      (l.filter (fun r => priority_order_rank r.priority = k)) := by
  apply List.pairwise_of_forall_mem_list
  intro a ha b hb
  rw [mem_filter_rank l k a ha, mem_filter_rank l k b hb]

/-- The bucket concatenation is sorted by rank. -/
lemma sorted_sort_by_priority (l : List Recommendation) :
    List.Sorted (fun a b => priority_order_rank a.priority ≤ priority_order_rank b.priority)
      (sort_by_priority l) := by
  unfold sort_by_priority
  show List.Pairwise _ _
  rw [List.pairwise_append]
  refine ⟨?_, sorted_bucket l 3, ?_⟩
  · rw [List.pairwise_append]
    refine ⟨?_, sorted_bucket l 2, ?_⟩
    · rw [List.pairwise_append]
      refine ⟨sorted_bucket l 0, sorted_bucket l 1, ?_⟩
      intro a ha b hb
      rw [mem_filter_rank l 0 a ha, mem_filter_rank l 1 b hb]
      omega
    · intro a ha b hb
      rcases List.mem_append.mp ha with ha | ha
      · rw [mem_filter_rank l 0 a ha, mem_filter_rank l 2 b hb]; omega
      · rw [mem_filter_rank l 1 a ha, mem_filter_rank l 2 b hb]; omega
  · intro a ha b hb
    rcases List.mem_append.mp ha with ha | ha
    · rcases List.mem_append.mp ha with ha | ha
      · rw [mem_filter_rank l 0 a ha, mem_filter_rank l 3 b hb]; omega
      · rw [mem_filter_rank l 1 a ha, mem_filter_rank l 3 b hb]; omega
    · rw [mem_filter_rank l 2 a ha, mem_filter_rank l 3 b hb]; omega

/-- C9: the recommendation list is ordered with every HIGH entry before
every MEDIUM entry before every LOW entry, input order is preserved
inside each tier (each rank bucket of the output equals the bucket of the
unsorted build in input order), products whose EOQ call failed are
omitted rather than erroring the batch, and the priority of a kept
product is HIGH when stock is at or below the reorder point, MEDIUM at or
below one and a half times it, LOW otherwise. -/
theorem optimization_recommendations_ordered (items : List OptItem) :
    List.Sorted (fun a b => priority_order_rank a.priority ≤ priority_order_rank b.priority)
      (get_optimization_recommendations items) ∧
    (∀ k, (get_optimization_recommendations items).filter
        (fun r => priority_order_rank r.priority = k) =
      (build_recommendations items).filter (fun r => priority_order_rank r.priority = k)) ∧
    (get_optimization_recommendations items).length =
      (items.filter (fun it => it.eoq_result.isOk)).length ∧
    (∀ it e, it.eoq_result = .ok e →
      (mk_recommendation it e).priority =
        (if it.current_stock ≤ it.reorder_point then "HIGH"
         else if it.current_stock ≤ it.reorder_point * (3 / 2) then "MEDIUM"
         else "LOW")) := by
  refine ⟨sorted_sort_by_priority _, ?_, ?_, ?_⟩
  · intro k
    unfold get_optimization_recommendations sort_by_priority
    simp only [List.filter_append]
    by_cases h0 : k = 0
    · subst h0
      rw [filter_rank_idem, filter_rank_of_ne _ 1 0 (by omega),
        filter_rank_of_ne _ 2 0 (by omega), filter_rank_of_ne _ 3 0 (by omega)]
      simp
    · by_cases h1 : k = 1
      · subst h1
        rw [filter_rank_idem, filter_rank_of_ne _ 0 1 (by omega),
          filter_rank_of_ne _ 2 1 (by omega), filter_rank_of_ne _ 3 1 (by omega)]
        simp
      · by_cases h2 : k = 2
        · subst h2
          rw [filter_rank_idem, filter_rank_of_ne _ 0 2 (by omega),
            filter_rank_of_ne _ 1 2 (by omega), filter_rank_of_ne _ 3 2 (by omega)]
          simp
        · by_cases h3 : k = 3
          · subst h3
            rw [filter_rank_idem, filter_rank_of_ne _ 0 3 (by omega),
              filter_rank_of_ne _ 1 3 (by omega), filter_rank_of_ne _ 2 3 (by omega)]
            simp
          · rw [filter_rank_of_ne _ 0 k (by omega), filter_rank_of_ne _ 1 k (by omega),
              filter_rank_of_ne _ 2 k (by omega), filter_rank_of_ne _ 3 k (by omega)]
            simp only [List.append_nil, List.nil_append]
            symm
            apply List.filter_eq_nil_iff.mpr
            intro a _
            have := rank_le_three a.priority
            simp only [decide_eq_true_eq]
            omega
  · unfold get_optimization_recommendations
    rw [sort_by_priority_length, build_recommendations_length]
  · intro it e _
    rfl

/-- Witness for C9: the example catalog sorts to HIGH, MEDIUM, LOW with
the failed product dropped, the HIGH entry being the stock-5 product of
the spec example. -/
theorem optimization_recommendations_ordered_witness :
    List.Sorted (fun a b => priority_order_rank a.priority ≤ priority_order_rank b.priority)
      (get_optimization_recommendations exItems) ∧
    (get_optimization_recommendations exItems).map Recommendation.priority =
      ["HIGH", "MEDIUM", "LOW"] ∧
    (get_optimization_recommendations exItems).map Recommendation.sku = ["B", "C", "A"] ∧
    (get_optimization_recommendations exItems).length = 3 := by
  refine ⟨(optimization_recommendations_ordered exItems).1, ?_, ?_, ?_⟩ <;>
    · simp [get_optimization_recommendations, sort_by_priority, build_recommendations,
        exItems, mk_recommendation, priority_order_rank, List.filter]
      norm_num
      decide

